import Mathlib

/-
Verification of the content access-control and entry-filtering engine of the
backend: the Pledge capability object (src/pledge.js), the access predicates
canAccessPodcast / canAccessPatronMedia / canAccess, the entry filter
filterEntry / filterData, and the feed-level gate canAccessFeed from the
request-handler module. JavaScript objects are embedded as Lean structures;
an Option models a field that may be absent (or null) in the JSON object;
a function that can throw returns Except String instead.
-/

namespace Backend

/-- Identity and kind metadata of a content entry, mirroring sys.id and
sys.contentType.sys.id of a Contentful entry. -/
structure Sys where
  id : String
  contentTypeId : String

/-- The field map of a content entry. Every component is optional; none models
a key that is absent from the field map. The component named podcast holds the
sys.id of the linked parent podcast of a podcastEpisode entry. The component
minimumPledgeDollars only occurs on podcast collection entries and is read by
the legacy access rule. -/
structure Fields where
  title : Option String
  podcast : Option String
  isFreePreview : Option Bool
  media : Option String
  mediaUrl : Option String
  patronsOnly : Option Bool
  minimumPledgeDollars : Option Nat

/-- A content entry: a sys block and a field map. Podcast collection objects
are entries as well (their contentTypeId is the string podcast). -/
structure Entry where
  sys : Sys
  fields : Fields

/-- JavaScript truthiness of an optional boolean field: an absent key and the
value false are both falsy. -/
def truthy (b : Option Bool) : Bool := b.getD false

/-- Entitlement flags on a tier definition entry (tier.fields in the source);
an absent flag is falsy in the source, so it is a plain Bool here. -/
structure TierFields where
  canAccessMeditations : Bool
  canAccessLiturgies : Bool
  adFreeListening : Bool

/-- A tier definition fetched from the content store. -/
structure Tier where
  fields : TierFields

/-- The Pledge class of src/pledge.js: constructor arguments userData, tier,
podcasts, zoomRoomPasscode. The podcasts component is the list of podcast
entries included with the tier; none models the undefined value the
constructor receives when no tier was found. -/
structure Pledge where
  userData : Option String
  tier : Option Tier
  podcasts : Option (List Entry)
  zoomRoomPasscode : Option String

/-- Pledge method isPatron: double negation of the tier. -/
def Pledge.isPatron (p : Pledge) : Bool := p.tier.isSome

/-- The id and title projection that Pledge method getPodcasts produces for
each podcast entry of the tier. -/
structure PodcastInfo where
  id : String
  title : Option String

/-- Pledge method getPodcasts: empty when the podcasts component is absent,
otherwise the id and title of each podcast entry. -/
def Pledge.getPodcasts (p : Pledge) : List PodcastInfo :=
  match p.podcasts with
  | none => []
  | some podcasts => podcasts.map (fun podcast => ⟨podcast.sys.id, podcast.fields.title⟩)

/-- Pledge method canAccessPodcast: grant when the podcast is not patrons-only;
otherwise require a tier and a podcast list and membership of the podcast id
in that list. -/
def Pledge.canAccessPodcast (p : Pledge) (podcast : Entry) : Bool :=
  if !(truthy podcast.fields.patronsOnly) then
    true
  else
    match p.tier, p.podcasts with
    | some _, some tierPodcasts =>
      tierPodcasts.any (fun tierPodcast => podcast.sys.id = tierPodcast.sys.id)
    | _, _ => false

/-- Pledge method canAccessMeditations: the tier flag, or false without a tier. -/
def Pledge.canAccessMeditations (p : Pledge) : Bool :=
  match p.tier with
  | some tier => tier.fields.canAccessMeditations
  | none => false

/-- Pledge method canAccessLiturgies: the tier flag, or false without a tier. -/
def Pledge.canAccessLiturgies (p : Pledge) : Bool :=
  match p.tier with
  | some tier => tier.fields.canAccessLiturgies
  | none => false

/-- Pledge method canListenAdFree: the adFreeListening tier flag, or false
without a tier. -/
def Pledge.canListenAdFree (p : Pledge) : Bool :=
  match p.tier with
  | some tier => tier.fields.adFreeListening
  | none => false

/-- Module-level function canAccessPodcast of the request-handler module:
grant when the patronsOnly field of the podcast is falsy, otherwise defer to
the Pledge method when a pledge is present. -/
def canAccessPodcast (pledge : Option Pledge) (podcast : Entry) : Bool :=
  let patronsOnly := truthy podcast.fields.patronsOnly
  !patronsOnly ||
    (match pledge with
     | some p => p.canAccessPodcast podcast
     | none => false)

/-- Function canAccessPatronMedia: false for a null pledge; the meditation or
liturgy entitlement for the two recognized content types; throws on any other
content type. -/
def canAccessPatronMedia (pledge : Option Pledge) (contentType : String) :
    Except String Bool :=
  match pledge with
  | none => Except.ok false
  | some p =>
    if contentType = "meditation" then Except.ok p.canAccessMeditations
    else if contentType = "liturgyItem" then Except.ok p.canAccessLiturgies
    else Except.error ("Unexpected contentType " ++ contentType)

/-- Function canAccess: dispatch on the content type of the item. For a
podcastEpisode the parent podcast is read from the map; reading the link or
dereferencing a missing podcast throws a TypeError in the source, modelled as
an error value. Every content type outside the three gated kinds is granted. -/
def canAccess (pledge : Option Pledge) (item : Entry)
    (podcasts : String → Option Entry) : Except String Bool :=
  if item.sys.contentTypeId = "podcastEpisode" then
    match item.fields.podcast with
    | none => Except.error "TypeError: cannot read sys of undefined"
    | some podcastId =>
      match podcasts podcastId with
      | none => Except.error "TypeError: cannot read fields of undefined"
      | some podcast => Except.ok (canAccessPodcast pledge podcast)
  else
    if item.sys.contentTypeId = "meditation" ∨ item.sys.contentTypeId = "liturgyItem" then
      canAccessPatronMedia pledge item.sys.contentTypeId
    else
      Except.ok true

/-- The three content types that filterEntry gates. -/
def gatedKinds : List String := ["podcastEpisode", "meditation", "liturgyItem"]

/-- Overwrite the patronsOnly field of an entry, as the lodash set call on the
path fields.patronsOnly does. -/
def setPatronsOnly (e : Entry) (b : Bool) : Entry :=
  { e with fields := { e.fields with patronsOnly := some b } }

/-- Remove the media and mediaUrl keys from the field map of an entry, as the
lodash omit call on the paths fields.media and fields.mediaUrl does. -/
def omitMedia (e : Entry) : Entry :=
  { e with fields := { e.fields with media := none, mediaUrl := none } }

/-- The tail of filterEntry after the missing-podcast guard: consult canAccess,
mark an accessible entry with patronsOnly false, and redact a denied entry
(keep the media of a free preview, omit it otherwise) marking patronsOnly
true. -/
def applyAccess (entry : Entry) (pledge : Option Pledge)
    (podcasts : String → Option Entry) : Except String (Option Entry) :=
  match canAccess pledge entry podcasts with
  | Except.error e => Except.error e
  | Except.ok true => Except.ok (some (setPatronsOnly entry false))
  | Except.ok false =>
    Except.ok (some (setPatronsOnly
      (if truthy entry.fields.isFreePreview then entry else omitMedia entry) true))

/-- Function filterEntry: entries of a kind outside the gated kinds pass
through unchanged; a podcastEpisode whose parent podcast is missing from the
map filters to null (none); otherwise the access decision is applied. -/
def filterEntry (entry : Entry) (pledge : Option Pledge)
    (podcasts : String → Option Entry) : Except String (Option Entry) :=
  if gatedKinds.contains entry.sys.contentTypeId then
    if entry.sys.contentTypeId = "podcastEpisode" then
      match entry.fields.podcast with
      | none => Except.error "TypeError: cannot read sys of undefined"
      | some podcastId =>
        match podcasts podcastId with
        | none => Except.ok none
        | some _ => applyAccess entry pledge podcasts
    else
      applyAccess entry pledge podcasts
  else
    Except.ok (some entry)

/-- A Contentful API response: either a single entry (no items key) or a
paginated collection carrying an item list, the included entries, and the
remaining response fields, which the filter passes through untouched. -/
inductive ContentfulData where
  | single (entry : Entry)
  | collection (items : List Entry) (includes : List Entry)
      (extra : List (String × String))

/-- The podcast map that filterData builds from the included entries: keep the
entries whose content type is podcast and key them by sys.id; with a duplicate
id the later entry wins, as with lodash fromPairs. -/
def buildPodcastMap (includes : List Entry) : String → Option Entry :=
  fun podcastId =>
    ((includes.filter (fun e => e.sys.contentTypeId = "podcast")).reverse).find?
      (fun e => e.sys.id = podcastId)

/-- Mapping filterEntry over an item list and dropping the null results, as the
map and filter calls of filterData do; an exception from filterEntry aborts the
traversal. -/
def filterItems (items : List Entry) (pledge : Option Pledge)
    (podcasts : String → Option Entry) : Except String (List Entry) :=
  match items with
  | [] => Except.ok []
  | e :: rest =>
    match filterEntry e pledge podcasts with
    | Except.error err => Except.error err
    | Except.ok none => filterItems rest pledge podcasts
    | Except.ok (some fe) =>
      match filterItems rest pledge podcasts with
      | Except.error err => Except.error err
      | Except.ok l => Except.ok (fe :: l)

/-- Function filterData: a single entry is filtered with an empty podcast map
and the (possibly null) result returned directly; a collection has its items
filtered against the podcast map built from the includes, every other response
field passing through. -/
def filterData (d : ContentfulData) (pledge : Option Pledge) :
    Except String (Option ContentfulData) :=
  match d with
  | ContentfulData.single e =>
    match filterEntry e pledge (fun _ => none) with
    | Except.error err => Except.error err
    | Except.ok r => Except.ok (r.map ContentfulData.single)
  | ContentfulData.collection items includes extra =>
    match filterItems items pledge (buildPodcastMap includes) with
    | Except.error err => Except.error err
    | Except.ok l => Except.ok (some (ContentfulData.collection l includes extra))

/-- Function canAccessFeed of the request-handler module: the podcast rule for
a podcast collection, the meditation entitlement for a meditationCategory
collection, and a thrown error for every other collection type. -/
def canAccessFeed (collectionObj : Entry) (pledge : Option Pledge) :
    Except String Bool :=
  if collectionObj.sys.contentTypeId = "podcast" then
    Except.ok (canAccessPodcast pledge collectionObj)
  else if collectionObj.sys.contentTypeId ≠ "meditationCategory" then
    Except.error ("Unknown feed collection type: " ++ collectionObj.sys.contentTypeId)
  else
    canAccessPatronMedia pledge "meditation"

/-- The superseded canAccessPodcast of the older request-handler module, kept
for reference: a pledge there is a raw pledge record with an amount_cents
attribute, and access to a podcast with a minimum pledge in dollars is granted
when the pledge amount in cents reaches one hundred times that minimum. -/
structure LegacyPledge where
  amount_cents : Nat

/-- The legacy podcast access rule: public when minimumPledgeDollars is absent
or null, otherwise a comparison of the pledge amount against the threshold. -/
def canAccessPodcastLegacy (pledge : Option LegacyPledge) (podcast : Entry) : Bool :=
  match podcast.fields.minimumPledgeDollars with
  | none => true
  | some dollars =>
    match pledge with
    | none => false
    | some p => dollars * 100 ≤ p.amount_cents

/-! Concrete sample data for witnesses and counterexamples. -/

/-- A podcast episode entry linking to the podcast with id p1. -/
def sampleEpisode : Entry :=
  ⟨⟨"ep1", "podcastEpisode"⟩,
   ⟨some "Episode One", some "p1", none, some "asset-ep1",
    some "https://cdn.example/ep1.mp3", none, none⟩⟩

/-- A meditation entry with media. -/
def sampleMeditation : Entry :=
  ⟨⟨"m1", "meditation"⟩,
   ⟨some "Morning Meditation", none, none, some "asset-m1",
    some "https://cdn.example/m1.mp3", none, none⟩⟩

/-- A podcast with no patronsOnly flag and no minimum pledge: fully public. -/
def publicPodcast : Entry :=
  ⟨⟨"p1", "podcast"⟩, ⟨some "Public Pod", none, none, none, none, none, none⟩⟩

/-- A podcast carrying only the legacy minimumPledgeDollars field, set to 5,
with no patronsOnly flag. -/
def pricedPodcast : Entry :=
  ⟨⟨"p1", "podcast"⟩, ⟨some "Priced Pod", none, none, none, none, none, some 5⟩⟩

/-- A podcast marked patrons-only. -/
def patronsOnlyPodcast : Entry :=
  ⟨⟨"p1", "podcast"⟩, ⟨some "Patron Pod", none, none, none, none, some true, none⟩⟩

/-- A liturgy collection object. -/
def liturgyCollection : Entry :=
  ⟨⟨"lit1", "liturgy"⟩, ⟨some "A Liturgy", none, none, none, none, none, none⟩⟩

/-- A meditation category collection object. -/
def meditationCategoryCollection : Entry :=
  ⟨⟨"mc1", "meditationCategory"⟩,
   ⟨some "Daily", none, none, none, none, none, none⟩⟩

/-- A tier granting every entitlement. -/
def fullTier : Tier := ⟨⟨true, true, true⟩⟩

/-- A pledge with a full tier and an empty podcast list. -/
def patronPledge : Pledge := ⟨none, some fullTier, some [], none⟩

/-- The pledge the handler builds for an anonymous caller: every constructor
argument undefined. -/
def emptyPledge : Pledge := ⟨none, none, none, none⟩

/-- A collections map holding exactly one podcast under the id p1. -/
def singletonPodcastMap (pod : Entry) : String → Option Entry :=
  fun podcastId => if podcastId = "p1" then some pod else none

/-! Helper lemmas: the redaction operations preserve the sys block, the
parent-podcast link and the free-preview flag, so the access decision is
invariant under them. -/

theorem sys_setPatronsOnly (e : Entry) (b : Bool) :
    (setPatronsOnly e b).sys = e.sys := rfl

theorem sys_omitMedia (e : Entry) : (omitMedia e).sys = e.sys := rfl

theorem podcastRef_setPatronsOnly (e : Entry) (b : Bool) :
    (setPatronsOnly e b).fields.podcast = e.fields.podcast := rfl

theorem podcastRef_omitMedia (e : Entry) :
    (omitMedia e).fields.podcast = e.fields.podcast := rfl

theorem free_setPatronsOnly (e : Entry) (b : Bool) :
    (setPatronsOnly e b).fields.isFreePreview = e.fields.isFreePreview := rfl

theorem free_omitMedia (e : Entry) :
    (omitMedia e).fields.isFreePreview = e.fields.isFreePreview := rfl

theorem canAccess_setPatronsOnly (pledge : Option Pledge) (e : Entry) (b : Bool)
    (pods : String → Option Entry) :
    canAccess pledge (setPatronsOnly e b) pods = canAccess pledge e pods := rfl

theorem canAccess_omitMedia (pledge : Option Pledge) (e : Entry)
    (pods : String → Option Entry) :
    canAccess pledge (omitMedia e) pods = canAccess pledge e pods := rfl

theorem setPatronsOnly_idem (e : Entry) (b c : Bool) :
    setPatronsOnly (setPatronsOnly e b) c = setPatronsOnly e c := rfl

theorem omitMedia_setPatronsOnly (e : Entry) (b : Bool) :
    omitMedia (setPatronsOnly e b) = setPatronsOnly (omitMedia e) b := rfl

theorem omitMedia_idem (e : Entry) : omitMedia (omitMedia e) = omitMedia e := rfl

/-- When canAccess reaches a verdict (no exception), filterEntry on a gated
entry reduces to the access-application step: in particular the parent lookup
of a podcast episode must have succeeded. -/
theorem filterEntry_eq_applyAccess (e : Entry) (pledge : Option Pledge)
    (pods : String → Option Entry) (b : Bool)
    (hg : gatedKinds.contains e.sys.contentTypeId = true)
    (hok : canAccess pledge e pods = Except.ok b) :
    filterEntry e pledge pods = applyAccess e pledge pods := by
  have hg' : e.sys.contentTypeId ∈ gatedKinds := by simpa using hg
  unfold filterEntry
  by_cases hpe : e.sys.contentTypeId = "podcastEpisode"
  · unfold canAccess at hok
    rw [if_pos hpe] at hok
    cases href : e.fields.podcast with
    | none => simp [href] at hok
    | some pid =>
      cases hmap : pods pid with
      | none => simp [href, hmap] at hok
      | some pod => simp [hg', hpe, href, hmap, gatedKinds]
  · simp [hg', hpe]

/-- Claim C2: for every podcastEpisode entry whose referenced parent podcast id
is absent from the collections map and every pledge, filterEntry returns null,
and collection filtering omits the entry from the output list entirely. -/
theorem filterEntry_missing_podcast_dropped
    (e : Entry) (pledge : Option Pledge) (pid : String)
    (hct : e.sys.contentTypeId = "podcastEpisode")
    (href : e.fields.podcast = some pid) :
    (∀ pods : String → Option Entry, pods pid = none →
      filterEntry e pledge pods = Except.ok none)
    ∧ (∀ (includes xs ys : List Entry) (extra : List (String × String)),
        buildPodcastMap includes pid = none →
        filterData (ContentfulData.collection (xs ++ e :: ys) includes extra) pledge
          = filterData (ContentfulData.collection (xs ++ ys) includes extra) pledge) := by
  have hdrop : ∀ pods : String → Option Entry, pods pid = none →
      filterEntry e pledge pods = Except.ok none := by
    intro pods hmap
    unfold filterEntry
    rw [hct]
    simp [gatedKinds, href, hmap]
  refine ⟨hdrop, ?_⟩
  intro includes xs ys extra hmap
  have hskip : ∀ zs : List Entry,
      filterItems (zs ++ e :: ys) pledge (buildPodcastMap includes)
        = filterItems (zs ++ ys) pledge (buildPodcastMap includes) := by
    intro zs
    induction zs with
    | nil => simp only [List.nil_append, filterItems, hdrop _ hmap]
    | cons x zs ih =>
      simp only [List.cons_append, filterItems, List.append_eq, ih]
  simp only [filterData, hskip xs]

/-- Witness for claim C2: the sample episode is dropped both by filterEntry
against the empty map and by collection filtering with no included podcasts. -/
theorem filterEntry_missing_podcast_dropped_witness :
    filterEntry sampleEpisode none (fun _ => none) = Except.ok none
    ∧ filterData (ContentfulData.collection [sampleEpisode] [] []) none
        = filterData (ContentfulData.collection [] [] []) none :=
  ⟨(filterEntry_missing_podcast_dropped sampleEpisode none "p1" rfl rfl).1 _ rfl,
   (filterEntry_missing_podcast_dropped sampleEpisode none "p1" rfl rfl).2 [] [] [] [] rfl⟩

/-- Claim C9: filterData treats a singular response by filtering it against an
empty collections map, so a singly fetched podcastEpisode entry is always
dropped (null result) for every pledge, even when its referenced podcast
exists and is published. -/
theorem filterData_single_empty_map (e : Entry) (pledge : Option Pledge) :
    (filterData (ContentfulData.single e) pledge
      = (filterEntry e pledge (fun _ => none)).map
          (fun r => r.map ContentfulData.single))
    ∧ (∀ pid : String, e.sys.contentTypeId = "podcastEpisode" →
        e.fields.podcast = some pid →
        filterData (ContentfulData.single e) pledge = Except.ok none) := by
  constructor
  · cases h : filterEntry e pledge (fun _ => none) with
    | error err => simp [filterData, h, Except.map]
    | ok r => simp [filterData, h, Except.map]
  · intro pid hct href
    have hfe : filterEntry e pledge (fun _ => none) = Except.ok none := by
      unfold filterEntry
      rw [hct]
      simp [gatedKinds, href]
    simp [filterData, hfe]

/-- Witness for claim C9: the singly fetched sample episode is dropped for the
anonymous pledge even though the podcast p1 it references exists. -/
theorem filterData_single_empty_map_witness :
    filterData (ContentfulData.single sampleEpisode) none = Except.ok none :=
  (filterData_single_empty_map sampleEpisode none).2 "p1" rfl rfl

/-- Claim C10: canAccess never throws when the parent podcast of a
podcastEpisode is resolvable; the unexpected-contentType error branch of
canAccessPatronMedia is unreachable through canAccess, and every kind outside
the three gated kinds is granted. -/
theorem canAccess_total_on_resolvable_entries
    (pledge : Option Pledge) (e : Entry) (pods : String → Option Entry)
    (h : e.sys.contentTypeId = "podcastEpisode" →
      ∃ pid pod, e.fields.podcast = some pid ∧ pods pid = some pod) :
    (∃ b, canAccess pledge e pods = Except.ok b)
    ∧ (gatedKinds.contains e.sys.contentTypeId = false →
        canAccess pledge e pods = Except.ok true) := by
  by_cases hpe : e.sys.contentTypeId = "podcastEpisode"
  · obtain ⟨pid, pod, href, hmap⟩ := h hpe
    constructor
    · refine ⟨canAccessPodcast pledge pod, ?_⟩
      unfold canAccess
      rw [if_pos hpe, href]
      simp [hmap]
    · intro hng
      rw [hpe] at hng
      simp [gatedKinds] at hng
  · by_cases hml : e.sys.contentTypeId = "meditation" ∨ e.sys.contentTypeId = "liturgyItem"
    · have hacc : canAccess pledge e pods
          = canAccessPatronMedia pledge e.sys.contentTypeId := by
        unfold canAccess
        rw [if_neg hpe, if_pos hml]
      constructor
      · cases pledge with
        | none => exact ⟨false, by rw [hacc]; rfl⟩
        | some p =>
          rcases hml with hm | hl
          · exact ⟨p.canAccessMeditations, by
              rw [hacc, hm]; rfl⟩
          · exact ⟨p.canAccessLiturgies, by
              rw [hacc, hl]; rfl⟩
      · intro hng
        rcases hml with hm | hl
        · rw [hm] at hng; simp [gatedKinds] at hng
        · rw [hl] at hng; simp [gatedKinds] at hng
    · have hacc : canAccess pledge e pods = Except.ok true := by
        unfold canAccess
        rw [if_neg hpe, if_neg hml]
      exact ⟨⟨true, hacc⟩, fun _ => hacc⟩

/-- Witness for claim C10: with the public podcast resolvable, canAccess on the
sample episode for the anonymous pledge yields a verdict without throwing. -/
theorem canAccess_total_on_resolvable_entries_witness :
    (∃ b, canAccess none sampleEpisode (singletonPodcastMap publicPodcast)
      = Except.ok b)
    ∧ (gatedKinds.contains sampleEpisode.sys.contentTypeId = false →
        canAccess none sampleEpisode (singletonPodcastMap publicPodcast)
          = Except.ok true) :=
  canAccess_total_on_resolvable_entries none sampleEpisode
    (singletonPodcastMap publicPodcast)
    (fun _ => ⟨"p1", publicPodcast, rfl, rfl⟩)

/-- Claim C3: when access to a gated entry is denied, a free preview passes
through unchanged except patronsOnly set to true with its media intact, while
any other entry has its media and mediaUrl keys removed from the field map
entirely and patronsOnly set to true. -/
theorem filterEntry_denied_redaction
    (e : Entry) (pledge : Option Pledge) (pods : String → Option Entry)
    (hg : gatedKinds.contains e.sys.contentTypeId = true)
    (hden : canAccess pledge e pods = Except.ok false) :
    (truthy e.fields.isFreePreview = true →
      filterEntry e pledge pods = Except.ok (some (setPatronsOnly e true))
      ∧ (setPatronsOnly e true).fields.media = e.fields.media
      ∧ (setPatronsOnly e true).fields.mediaUrl = e.fields.mediaUrl)
    ∧ (truthy e.fields.isFreePreview = false →
      filterEntry e pledge pods
        = Except.ok (some (setPatronsOnly (omitMedia e) true))
      ∧ (setPatronsOnly (omitMedia e) true).fields.media = none
      ∧ (setPatronsOnly (omitMedia e) true).fields.mediaUrl = none) := by
  have hfe := filterEntry_eq_applyAccess e pledge pods false hg hden
  constructor
  · intro hfree
    refine ⟨?_, rfl, rfl⟩
    rw [hfe]
    unfold applyAccess
    rw [hden]
    simp [hfree]
  · intro hfree
    refine ⟨?_, rfl, rfl⟩
    rw [hfe]
    unfold applyAccess
    rw [hden]
    simp [hfree]

/-- Witness for claim C3: the sample meditation, denied for the anonymous
pledge and not a free preview, loses both media keys and gains patronsOnly
true. -/
theorem filterEntry_denied_redaction_witness :
    filterEntry sampleMeditation none (fun _ => none)
      = Except.ok (some (setPatronsOnly (omitMedia sampleMeditation) true))
    ∧ (setPatronsOnly (omitMedia sampleMeditation) true).fields.media = none
    ∧ (setPatronsOnly (omitMedia sampleMeditation) true).fields.mediaUrl = none :=
  (filterEntry_denied_redaction sampleMeditation none (fun _ => none)
    rfl rfl).2 rfl

/-- Filtering the output of the access-application step again returns it
unchanged: the redactions preserve everything the access decision reads. -/
theorem applyAccess_idempotent (e : Entry) (pledge : Option Pledge)
    (pods : String → Option Entry) (r : Entry)
    (hg : gatedKinds.contains e.sys.contentTypeId = true)
    (h : applyAccess e pledge pods = Except.ok (some r)) :
    filterEntry r pledge pods = Except.ok (some r) := by
  unfold applyAccess at h
  cases hacc : canAccess pledge e pods with
  | error err => rw [hacc] at h; simp at h
  | ok b =>
    rw [hacc] at h
    cases b with
    | true =>
      simp at h
      subst h
      have hg2 : gatedKinds.contains
          (setPatronsOnly e false).sys.contentTypeId = true := hg
      have hacc2 : canAccess pledge (setPatronsOnly e false) pods
          = Except.ok true := hacc
      rw [filterEntry_eq_applyAccess _ pledge pods true hg2 hacc2]
      unfold applyAccess
      rw [hacc2]
      rfl
    | false =>
      simp at h
      cases hfree : truthy e.fields.isFreePreview with
      | true =>
        rw [hfree] at h
        simp at h
        subst h
        have hg2 : gatedKinds.contains
            (setPatronsOnly e true).sys.contentTypeId = true := hg
        have hacc2 : canAccess pledge (setPatronsOnly e true) pods
            = Except.ok false := hacc
        have hfree2 : truthy (setPatronsOnly e true).fields.isFreePreview
            = true := hfree
        rw [filterEntry_eq_applyAccess _ pledge pods false hg2 hacc2]
        unfold applyAccess
        rw [hacc2]
        simp [hfree2, setPatronsOnly_idem]
      | false =>
        rw [hfree] at h
        simp at h
        subst h
        have hg2 : gatedKinds.contains
            (setPatronsOnly (omitMedia e) true).sys.contentTypeId = true := hg
        have hacc2 : canAccess pledge (setPatronsOnly (omitMedia e) true) pods
            = Except.ok false := hacc
        have hfree2 :
            truthy (setPatronsOnly (omitMedia e) true).fields.isFreePreview
              = false := hfree
        rw [filterEntry_eq_applyAccess _ pledge pods false hg2 hacc2]
        unfold applyAccess
        rw [hacc2]
        simp [hfree2, omitMedia_setPatronsOnly, omitMedia_idem, setPatronsOnly_idem]

/-- Claim C8: filterEntry is idempotent: filtering an entry that is already an
output of filterEntry, with the same pledge and collections map, returns it
unchanged, so there is no cumulative redaction. -/
theorem filterEntry_idempotent
    (e : Entry) (pledge : Option Pledge) (pods : String → Option Entry)
    (r : Entry) (h : filterEntry e pledge pods = Except.ok (some r)) :
    filterEntry r pledge pods = Except.ok (some r) := by
  by_cases hg : gatedKinds.contains e.sys.contentTypeId = true
  · cases hacc : canAccess pledge e pods with
    | error err =>
      exfalso
      unfold filterEntry at h
      rw [if_pos hg] at h
      by_cases hpe : e.sys.contentTypeId = "podcastEpisode"
      · rw [if_pos hpe] at h
        unfold canAccess at hacc
        rw [if_pos hpe] at hacc
        cases href : e.fields.podcast with
        | none => rw [href] at h; simp at h
        | some pid =>
          rw [href] at h hacc
          cases hmap : pods pid with
          | none => simp [hmap] at h
          | some pod => simp [hmap] at hacc
      · rw [if_neg hpe] at h
        unfold applyAccess at h
        rw [hacc] at h
        simp at h
    | ok b =>
      have h2 : applyAccess e pledge pods = Except.ok (some r) := by
        rw [← filterEntry_eq_applyAccess e pledge pods b hg hacc]
        exact h
      exact applyAccess_idempotent e pledge pods r hg h2
  · unfold filterEntry at h
    rw [if_neg hg] at h
    simp at h
    subst h
    unfold filterEntry
    rw [if_neg hg]

/-- Witness for claim C8: the filtered sample episode (denied, media removed)
passes through a second filtering unchanged. -/
theorem filterEntry_idempotent_witness :
    filterEntry (setPatronsOnly (omitMedia sampleEpisode) true) none
      (singletonPodcastMap patronsOnlyPodcast)
      = Except.ok (some (setPatronsOnly (omitMedia sampleEpisode) true)) :=
  filterEntry_idempotent sampleEpisode none
    (singletonPodcastMap patronsOnlyPodcast)
    (setPatronsOnly (omitMedia sampleEpisode) true) rfl

/-- Claim C6: filterData on a collection response applies filterEntry to every
item in input order, aborting on the first exception, drops exactly the items
that filtered to null, keeps the survivors in their original relative order,
and passes the includes and every other response field through unchanged. -/
theorem filterData_collection_spec (items includes : List Entry)
    (extra : List (String × String)) (pledge : Option Pledge) :
    filterData (ContentfulData.collection items includes extra) pledge
      = (items.mapM
          (fun e => filterEntry e pledge (buildPodcastMap includes))).map
          (fun l => some (ContentfulData.collection
            (l.filterMap id) includes extra)) := by
  have key : ∀ its : List Entry,
      filterItems its pledge (buildPodcastMap includes)
        = (its.mapM
            (fun e => filterEntry e pledge (buildPodcastMap includes))).map
            (fun l => l.filterMap id) := by
    intro its
    induction its with
    | nil => rfl
    | cons x xs ih =>
      rw [List.mapM_cons]
      cases hx : filterEntry x pledge (buildPodcastMap includes) with
      | error err =>
        simp [filterItems, hx, Except.map, Except.bind, Bind.bind]
      | ok fe =>
        cases hxs : xs.mapM
            (fun e => filterEntry e pledge (buildPodcastMap includes)) with
        | error err =>
          rw [hxs] at ih
          cases fe <;>
            simp [filterItems, hx, ih, hxs, Except.map, Except.bind, Bind.bind]
        | ok l =>
          rw [hxs] at ih
          cases fe <;>
            simp [filterItems, hx, ih, hxs, Except.map, Except.bind, Bind.bind,
              Except.pure, Pure.pure]
  cases hm : items.mapM
      (fun e => filterEntry e pledge (buildPodcastMap includes)) with
  | error err =>
    have hits := key items
    rw [hm] at hits
    simp [Except.map] at hits
    simp [filterData, hits, hm, Except.map]
  | ok l =>
    have hits := key items
    rw [hm] at hits
    simp [Except.map] at hits
    simp [filterData, hits, hm, Except.map]

/-- Counterexample to claim C1: with a null pledge and the parent podcast
carrying minimumPledgeDollars 5 and no patronsOnly flag, filterEntry grants
access, keeps the media, and sets patronsOnly to false, where the claim
predicts denial with stripped media and patronsOnly true: the pipeline reads
the patronsOnly flag of the podcast, never minimumPledgeDollars. -/
theorem filterEntry_ignores_minimumPledgeDollars :
    filterEntry sampleEpisode none (singletonPodcastMap pricedPodcast)
      = Except.ok (some (setPatronsOnly sampleEpisode false))
    ∧ (setPatronsOnly sampleEpisode false).fields.patronsOnly = some false
    ∧ (setPatronsOnly sampleEpisode false).fields.mediaUrl
        = some "https://cdn.example/ep1.mp3"
    ∧ pricedPodcast.fields.minimumPledgeDollars = some 5 :=
  ⟨rfl, rfl, rfl, rfl⟩

/-- Claim C1 (amended): for a podcastEpisode whose parent podcast is present
in the collections map, canAccess yields the module-level podcast rule, and
access is granted exactly when the patronsOnly flag of the podcast is falsy or
the pledge is non-null with a tier and a podcast list containing the id of the
podcast; when denied with a null pledge, a non-preview entry is returned with
its media keys removed and patronsOnly true. -/
theorem filterEntry_podcast_access_characterization
    (e pod : Entry) (pledge : Option Pledge) (pods : String → Option Entry)
    (pid : String)
    (hct : e.sys.contentTypeId = "podcastEpisode")
    (href : e.fields.podcast = some pid)
    (hmap : pods pid = some pod) :
    (canAccess pledge e pods = Except.ok (canAccessPodcast pledge pod))
    ∧ (canAccessPodcast pledge pod = true ↔
        (truthy pod.fields.patronsOnly = false
          ∨ ∃ p tier tierPodcasts, pledge = some p ∧ p.tier = some tier
              ∧ p.podcasts = some tierPodcasts
              ∧ tierPodcasts.any
                  (fun tierPodcast => pod.sys.id = tierPodcast.sys.id) = true))
    ∧ (canAccessPodcast pledge pod = true →
        filterEntry e pledge pods = Except.ok (some (setPatronsOnly e false)))
    ∧ (canAccessPodcast pledge pod = false →
        truthy e.fields.isFreePreview = false →
        filterEntry e pledge pods
          = Except.ok (some (setPatronsOnly (omitMedia e) true))) := by
  have hg : gatedKinds.contains e.sys.contentTypeId = true := by rw [hct]; rfl
  have hacc : canAccess pledge e pods
      = Except.ok (canAccessPodcast pledge pod) := by
    unfold canAccess
    rw [if_pos hct, href]
    simp [hmap]
  refine ⟨hacc, ?_, ?_, ?_⟩
  · constructor
    · intro h
      cases hpo : truthy pod.fields.patronsOnly with
      | false => exact Or.inl rfl
      | true =>
        right
        unfold canAccessPodcast at h
        simp [hpo] at h
        cases pledge with
        | none => simp at h
        | some p =>
          simp at h
          unfold Pledge.canAccessPodcast at h
          rw [hpo] at h
          simp at h
          cases ht : p.tier with
          | none => rw [ht] at h; simp at h
          | some t =>
            cases hpods : p.podcasts with
            | none => rw [ht, hpods] at h; simp at h
            | some l =>
              rw [ht, hpods] at h
              exact ⟨p, t, l, rfl, ht, hpods, h⟩
    · rintro (hpo | ⟨p, t, l, rfl, ht, hpods, h⟩)
      · unfold canAccessPodcast
        simp [hpo]
      · unfold canAccessPodcast Pledge.canAccessPodcast
        cases hpo : truthy pod.fields.patronsOnly with
        | false => simp [hpo]
        | true => simp [hpo, ht, hpods, h]
  · intro htrue
    have hacc2 : canAccess pledge e pods = Except.ok true := by
      rw [hacc, htrue]
    rw [filterEntry_eq_applyAccess e pledge pods true hg hacc2]
    unfold applyAccess
    rw [hacc2]
  · intro hfalse hfree
    have hacc2 : canAccess pledge e pods = Except.ok false := by
      rw [hacc, hfalse]
    rw [filterEntry_eq_applyAccess e pledge pods false hg hacc2]
    unfold applyAccess
    rw [hacc2]
    simp [hfree]

/-- Witness for claim C1 (amended): the denial scenario of the claim with the
flag the code actually reads: null pledge, patrons-only parent, non-preview
entry; the media keys are removed and patronsOnly set to true. -/
theorem filterEntry_podcast_access_characterization_witness :
    filterEntry sampleEpisode none (singletonPodcastMap patronsOnlyPodcast)
      = Except.ok (some (setPatronsOnly (omitMedia sampleEpisode) true)) :=
  (filterEntry_podcast_access_characterization sampleEpisode patronsOnlyPodcast
    none (singletonPodcastMap patronsOnlyPodcast) "p1" rfl rfl rfl).2.2.2 rfl rfl

/-- Counterexample to claim C5: with a null pledge, a podcastEpisode whose
parent podcast is public (no patronsOnly flag) is granted access by
filterEntry, the result carrying patronsOnly false. -/
theorem filterEntry_null_pledge_grants_public_podcast :
    filterEntry sampleEpisode none (singletonPodcastMap publicPodcast)
      = Except.ok (some (setPatronsOnly sampleEpisode false))
    ∧ (setPatronsOnly sampleEpisode false).fields.patronsOnly = some false :=
  ⟨rfl, rfl⟩

/-- Claim C5 (amended): with a null pledge, filterEntry never grants access to
meditation or liturgyItem entries; a gated entry is granted access, with
patronsOnly false on the result, exactly when it is a podcastEpisode whose
parent podcast is present in the map and not patrons-only. -/
theorem filterEntry_null_pledge_access_characterization
    (e : Entry) (pods : String → Option Entry) (r : Entry)
    (hg : gatedKinds.contains e.sys.contentTypeId = true)
    (h : filterEntry e none pods = Except.ok (some r)) :
    r.fields.patronsOnly = some false ↔
      (e.sys.contentTypeId = "podcastEpisode"
        ∧ ∃ pid pod, e.fields.podcast = some pid ∧ pods pid = some pod
            ∧ truthy pod.fields.patronsOnly = false) := by
  by_cases hpe : e.sys.contentTypeId = "podcastEpisode"
  · unfold filterEntry at h
    rw [if_pos hg, if_pos hpe] at h
    cases href : e.fields.podcast with
    | none => rw [href] at h; simp at h
    | some pid =>
      rw [href] at h
      cases hmap : pods pid with
      | none => simp [hmap] at h
      | some pod =>
        simp only [hmap] at h
        unfold applyAccess at h
        have hacc : canAccess none e pods
            = Except.ok (canAccessPodcast none pod) := by
          unfold canAccess
          rw [if_pos hpe, href]
          simp [hmap]
        rw [hacc] at h
        cases hpo : truthy pod.fields.patronsOnly with
        | false =>
          have hcp : canAccessPodcast none pod = true := by
            unfold canAccessPodcast
            simp [hpo]
          rw [hcp] at h
          simp at h
          subst h
          constructor
          · intro _
            exact ⟨hpe, pid, pod, rfl, hmap, hpo⟩
          · intro _
            rfl
        | true =>
          have hcp : canAccessPodcast none pod = false := by
            unfold canAccessPodcast
            simp [hpo]
          rw [hcp] at h
          simp at h
          subst h
          constructor
          · intro habs
            simp [setPatronsOnly] at habs
          · rintro ⟨-, pid2, pod2, href2, hmap2, hpo2⟩
            injection href2 with hpid
            subst hpid
            rw [hmap] at hmap2
            injection hmap2 with hpod
            subst hpod
            rw [hpo] at hpo2
            exact absurd hpo2 (by simp)
  · have hml : e.sys.contentTypeId = "meditation"
        ∨ e.sys.contentTypeId = "liturgyItem" := by
      have hmem : e.sys.contentTypeId ∈ gatedKinds := by simpa using hg
      simp [gatedKinds] at hmem
      rcases hmem with h1 | h2 | h3
      · exact absurd h1 hpe
      · exact Or.inl h2
      · exact Or.inr h3
    have hacc : canAccess none e pods = Except.ok false := by
      unfold canAccess
      rw [if_neg hpe, if_pos hml]
      rfl
    rw [filterEntry_eq_applyAccess e none pods false hg hacc] at h
    unfold applyAccess at h
    rw [hacc] at h
    simp at h
    subst h
    constructor
    · intro habs
      simp [setPatronsOnly] at habs
    · rintro ⟨hpe2, -⟩
      exact absurd hpe2 hpe

/-- Witness for claim C5 (amended): the filtered sample meditation under the
null pledge is denied, and the characterization instantiates to a false
equivalence on both sides. -/
theorem filterEntry_null_pledge_access_characterization_witness :
    (setPatronsOnly (omitMedia sampleMeditation) true).fields.patronsOnly
        = some false
      ↔ (sampleMeditation.sys.contentTypeId = "podcastEpisode"
          ∧ ∃ pid pod, sampleMeditation.fields.podcast = some pid
              ∧ (fun _ => (none : Option Entry)) pid = some pod
              ∧ truthy pod.fields.patronsOnly = false) :=
  filterEntry_null_pledge_access_characterization sampleMeditation
    (fun _ => none) (setPatronsOnly (omitMedia sampleMeditation) true) rfl rfl

/-- Counterexample to claim C4: the access predicate canAccessPatronMedia does
throw when applied with the empty pledge and an unrecognized content type,
while a null pledge returns false there, so null and empty pledges are not
identical and the predicates are not throw-free; moreover a Pledge whose tier
is null but whose podcast list is populated reports a non-empty getPodcasts. -/
theorem emptyPledge_access_counterexample :
    canAccessPatronMedia (some emptyPledge) "podcast"
      = Except.error "Unexpected contentType podcast"
    ∧ canAccessPatronMedia none "podcast" = Except.ok false
    ∧ Pledge.getPodcasts ⟨none, none, some [publicPodcast], none⟩
        = [⟨"p1", some "Public Pod"⟩] :=
  ⟨rfl, rfl, rfl⟩

/-- Claim C4 (amended): a Pledge with a null tier denies everything: isPatron
and the three entitlement flags are false, canAccessPodcast is false on every
patrons-only podcast, and getPodcasts is empty whenever the podcast list is
also absent, as it is for every pledge the resolver builds. On podcast checks,
on the two recognized gated content types, and throughout entry filtering, a
null pledge behaves identically to such a pledge without throwing; only
canAccessPatronMedia on an unrecognized content type distinguishes them,
throwing for the non-null pledge. -/
theorem pledge_deny_by_default (p : Pledge) (hp : p.tier = none) :
    p.isPatron = false
    ∧ p.canAccessMeditations = false
    ∧ p.canAccessLiturgies = false
    ∧ p.canListenAdFree = false
    ∧ (p.podcasts = none → p.getPodcasts = [])
    ∧ (∀ pod : Entry, truthy pod.fields.patronsOnly = true →
        p.canAccessPodcast pod = false)
    ∧ (∀ pod : Entry, canAccessPodcast none pod = canAccessPodcast (some p) pod)
    ∧ (∀ ct : String, ct = "meditation" ∨ ct = "liturgyItem" →
        canAccessPatronMedia none ct = Except.ok false
        ∧ canAccessPatronMedia (some p) ct = Except.ok false)
    ∧ (∀ (e : Entry) (pods : String → Option Entry),
        filterEntry e none pods = filterEntry e (some p) pods) := by
  have hmeth : ∀ pod : Entry, truthy pod.fields.patronsOnly = true →
      p.canAccessPodcast pod = false := by
    intro pod hpo
    unfold Pledge.canAccessPodcast
    rw [hpo, hp]
    simp
  have hmod : ∀ pod : Entry,
      canAccessPodcast none pod = canAccessPodcast (some p) pod := by
    intro pod
    unfold canAccessPodcast
    cases hpo : truthy pod.fields.patronsOnly with
    | false => simp [hpo]
    | true => simp [hpo, hmeth pod hpo]
  have hmedia : ∀ ct : String, ct = "meditation" ∨ ct = "liturgyItem" →
      canAccessPatronMedia none ct = Except.ok false
      ∧ canAccessPatronMedia (some p) ct = Except.ok false := by
    rintro ct (hm | hl)
    · subst hm
      refine ⟨rfl, ?_⟩
      show Except.ok p.canAccessMeditations = Except.ok false
      simp [Pledge.canAccessMeditations, hp]
    · subst hl
      refine ⟨rfl, ?_⟩
      show Except.ok p.canAccessLiturgies = Except.ok false
      simp [Pledge.canAccessLiturgies, hp]
  have haccEq : ∀ (e : Entry) (pods : String → Option Entry),
      canAccess none e pods = canAccess (some p) e pods := by
    intro e pods
    unfold canAccess
    by_cases hpe : e.sys.contentTypeId = "podcastEpisode"
    · rw [if_pos hpe, if_pos hpe]
      cases href : e.fields.podcast with
      | none => rfl
      | some pid =>
        cases hmap : pods pid with
        | none => simp [hmap]
        | some pod => simp [hmap, hmod pod]
    · rw [if_neg hpe, if_neg hpe]
      by_cases hml : e.sys.contentTypeId = "meditation"
          ∨ e.sys.contentTypeId = "liturgyItem"
      · rw [if_pos hml, if_pos hml]
        rw [(hmedia _ hml).1, (hmedia _ hml).2]
      · rw [if_neg hml, if_neg hml]
  refine ⟨by simp [Pledge.isPatron, hp],
    by simp [Pledge.canAccessMeditations, hp],
    by simp [Pledge.canAccessLiturgies, hp],
    by simp [Pledge.canListenAdFree, hp],
    fun h => by simp [Pledge.getPodcasts, h],
    hmeth, hmod, hmedia, ?_⟩
  intro e pods
  unfold filterEntry
  by_cases hgate : gatedKinds.contains e.sys.contentTypeId = true
  · rw [if_pos hgate, if_pos hgate]
    by_cases hpe : e.sys.contentTypeId = "podcastEpisode"
    · rw [if_pos hpe, if_pos hpe]
      cases href : e.fields.podcast with
      | none => rfl
      | some pid =>
        cases hmap : pods pid with
        | none => simp [hmap]
        | some pod =>
          simp only [hmap]
          unfold applyAccess
          rw [haccEq e pods]
    · rw [if_neg hpe, if_neg hpe]
      unfold applyAccess
      rw [haccEq e pods]
  · rw [if_neg hgate, if_neg hgate]

/-- Witness for claim C4 (amended): the empty pledge the handler constructs
for anonymous callers has a null tier; its flags are false, its podcast list
empty, and filtering the sample meditation with it equals filtering with the
null pledge. -/
theorem pledge_deny_by_default_witness :
    Pledge.isPatron emptyPledge = false
    ∧ Pledge.canAccessMeditations emptyPledge = false
    ∧ Pledge.getPodcasts emptyPledge = []
    ∧ filterEntry sampleMeditation none (fun _ => none)
        = filterEntry sampleMeditation (some emptyPledge) (fun _ => none) :=
  ⟨(pledge_deny_by_default emptyPledge rfl).1,
   (pledge_deny_by_default emptyPledge rfl).2.1,
   (pledge_deny_by_default emptyPledge rfl).2.2.2.2.1 rfl,
   (pledge_deny_by_default emptyPledge rfl).2.2.2.2.2.2.2.2
     sampleMeditation (fun _ => none)⟩

/-- Counterexample to claim C7: canAccessFeed throws on a liturgy collection
even for a pledge whose tier grants the liturgy entitlement, where the claim
expects the meditation/liturgy entitlement check to apply. -/
theorem canAccessFeed_liturgy_throws :
    canAccessFeed liturgyCollection (some patronPledge)
      = Except.error "Unknown feed collection type: liturgy"
    ∧ Pledge.canAccessLiturgies patronPledge = true :=
  ⟨rfl, rfl⟩

/-- Claim C7 (amended): canAccessFeed applies the podcast access rule to a
podcast collection, applies the meditation entitlement check only to a
meditationCategory collection, and throws for every other collection kind,
liturgy collections included. -/
theorem canAccessFeed_characterization (c : Entry) (pledge : Option Pledge) :
    (c.sys.contentTypeId = "podcast" →
      canAccessFeed c pledge = Except.ok (canAccessPodcast pledge c))
    ∧ (c.sys.contentTypeId = "meditationCategory" →
      canAccessFeed c pledge = canAccessPatronMedia pledge "meditation")
    ∧ (c.sys.contentTypeId ≠ "podcast" →
      c.sys.contentTypeId ≠ "meditationCategory" →
      canAccessFeed c pledge
        = Except.error
            ("Unknown feed collection type: " ++ c.sys.contentTypeId)) := by
  refine ⟨?_, ?_, ?_⟩
  · intro h
    unfold canAccessFeed
    rw [if_pos h]
  · intro h
    have hnp : ¬ c.sys.contentTypeId = "podcast" := by
      rw [h]
      decide
    unfold canAccessFeed
    rw [if_neg hnp, if_neg (not_not_intro h)]
  · intro h1 h2
    unfold canAccessFeed
    rw [if_neg h1, if_pos h2]

/-- Witness for claim C7 (amended): the feed gate on a meditation category
defers to the meditation entitlement, and on a podcast collection to the
podcast rule. -/
theorem canAccessFeed_characterization_witness :
    canAccessFeed meditationCategoryCollection (some patronPledge)
      = canAccessPatronMedia (some patronPledge) "meditation"
    ∧ canAccessFeed publicPodcast none
      = Except.ok (canAccessPodcast none publicPodcast) :=
  ⟨(canAccessFeed_characterization meditationCategoryCollection
      (some patronPledge)).2.1 rfl,
   (canAccessFeed_characterization publicPodcast none).1 rfl⟩

end Backend
